import Mathlib

/-!
# Verification of the wing-spar quick sizer

Shallow embedding of `src/spar_streamlit.py` (the only source file of the
repository `wing-spar-sizer`).  Python floating-point arithmetic is
idealized as exact rational arithmetic over `ℚ`; the float constant
`math.pi` is embedded as `mathPi`, the exact rational value of the IEEE-754
double that Python's `math.pi` denotes, and the default-argument literal
`9.81` is embedded as the rational `981/100`.  Strings are embedded as
Lean `String`s, processed through their character lists so that every
operation is a structurally recursive, kernel-evaluable function.
-/

namespace SparSizer

/- Restore kernel-style evaluability of rational arithmetic (these four
operations are shipped `@[irreducible]`), so that concrete runs of the
embedded program can be checked by `decide`. -/
attribute [local semireducible] Rat.add Rat.mul Rat.inv Rat.sub

/-- The exact rational value of the IEEE-754 binary64 constant `math.pi`
(`884279719003555 / 2^48`), used by `tube_section` in the source. -/
def mathPi : ℚ := 884279719003555 / 281474976710656

/-- The default gravitational acceleration `g=9.81` of
`root_bending_moment` in the source, idealized as `981/100`. -/
def grav : ℚ := 981 / 100

/-- Embedding of `root_bending_moment(mass_kg, span_m, load_factor, g=9.81)`
(src/spar_streamlit.py lines 12–16):
`W = mass_kg * g; L = W * load_factor; M = L * span_m / 8.0;
return W, L, M, M * 1000`. -/
def root_bending_moment (mass_kg span_m load_factor g : ℚ) : ℚ × ℚ × ℚ × ℚ :=
  let W := mass_kg * g
  let L := W * load_factor
  let M := L * span_m / 8
  (W, L, M, M * 1000)

/-- Embedding of `tube_section(D, d)` (src/spar_streamlit.py lines 18–22):
`I = math.pi / 64 * (D**4 - d**4); c = D / 2; S = I / c; return I, S`. -/
def tube_section (D d : ℚ) : ℚ × ℚ :=
  let I := mathPi / 64 * (D ^ 4 - d ^ 4)
  let c := D / 2
  let S := I / c
  (I, S)

/-- Embedding of `compute_tube(mass, span, g_load, D, d, strength)`
(src/spar_streamlit.py lines 24–29): calls `root_bending_moment` with the
default `g`, takes the N·mm moment `Mmm` and the section modulus `S`, and
returns `stress = Mmm / S` and `SF = strength / stress`. -/
def compute_tube (mass span g_load D d strength : ℚ) : ℚ × ℚ :=
  let Mmm := (root_bending_moment mass span g_load grav).2.2.2
  let S := (tube_section D d).2
  let stress := Mmm / S
  let SF := strength / stress
  (stress, SF)

/-! ## Candidate parsing (lines 59–72 of the source)

Python string operations are embedded as structurally recursive functions
on character lists, so that all of them evaluate inside the kernel. -/

/-- The ASCII whitespace characters removed by Python's `str.strip()`. -/
def isPySpace (c : Char) : Bool :=
  c = ' ' || c = '\t' || c = '\n' || c = '\r' || c = '\x0b' || c = '\x0c'

/-- Drop leading Python whitespace. -/
def dropSpacesLeft : List Char → List Char
  | [] => []
  | c :: cs => if isPySpace c then dropSpacesLeft cs else c :: cs

/-- Python `str.strip()`: drop leading and trailing whitespace. -/
def pyStrip (l : List Char) : List Char :=
  (dropSpacesLeft (dropSpacesLeft l).reverse).reverse

/-- Python `str.split(sep)` for a one-character separator `sep`. -/
def splitOnChar (sep : Char) : List Char → List (List Char)
  | [] => [[]]
  | c :: cs =>
    match splitOnChar sep cs with
    | [] => [[]]
    | h :: t => if c = sep then [] :: h :: t else (c :: h) :: t

/-- Is `c` one of the decimal digits `0`–`9`? -/
def isDigitChar (c : Char) : Bool := '0' ≤ c && c ≤ '9'

/-- The natural number denoted by a list of decimal digits. -/
def natOfDigits (l : List Char) : Nat :=
  l.foldl (fun a c => 10 * a + (c.toNat - '0'.toNat)) 0

/-- Unsigned part of Python `float(...)` on a decimal literal: `digits`,
`digits.digits`, `.digits` or `digits.`. -/
def pyFloatUnsigned (l : List Char) : Option ℚ :=
  match splitOnChar '.' l with
  | [ip] =>
    if !ip.isEmpty && ip.all isDigitChar then some (natOfDigits ip) else none
  | [ip, fp] =>
    if (!ip.isEmpty || !fp.isEmpty) && ip.all isDigitChar && fp.all isDigitChar then
      some ((natOfDigits ip : ℚ) + (natOfDigits fp : ℚ) / 10 ^ fp.length)
    else none
  | _ => none

/-- Python `float(...)` on a string, restricted to optionally signed decimal
literals (the only forms the tube-list format uses): surrounding whitespace
is tolerated, then an optional `+`/`-` sign precedes an unsigned decimal
literal.  Exponents, `inf` and `nan` are outside the model; `none` embeds a
raised `ValueError`. -/
def pyFloat (l : List Char) : Option ℚ :=
  match pyStrip l with
  | [] => none
  | c :: cs =>
    if c = '-' then (pyFloatUnsigned cs).map Neg.neg
    else if c = '+' then pyFloatUnsigned cs
    else pyFloatUnsigned (c :: cs)

/-- The two comma-separated float fields of one line of the tube list, after
removing spaces (`line.replace(" ", "").split(",")`, lines 63–67): `some (D, d)`
when the line has exactly two fields and both parse as floats. -/
def parseLinePair (line : List Char) : Option (ℚ × ℚ) :=
  match splitOnChar ',' (line.filter fun c => c ≠ ' ') with
  | [a, b] =>
    match pyFloat a, pyFloat b with
    | some D, some d => some (D, d)
    | _, _ => none
  | _ => none

/-- One iteration of the `parse_candidates` loop (lines 62–71): the line
contributes `(D, d)` exactly when it has two float fields and `d < D`. -/
def parseLine (line : List Char) : Option (ℚ × ℚ) :=
  match parseLinePair line with
  | some (D, d) => if d < D then some (D, d) else none
  | none => none

/-- The tube pairs contributed by a list of input lines. -/
def parseLines (lines : List (List Char)) : List (ℚ × ℚ) :=
  lines.filterMap parseLine

/-- Embedding of `parse_candidates(text)` (src/spar_streamlit.py lines
59–72): strip the text, split it into lines, and keep each line's `(D, d)`
pair when it parses and satisfies `d < D`. -/
def parse_candidates (text : String) : List (ℚ × ℚ) :=
  parseLines (splitOnChar '\n' (pyStrip text.toList))

/-! ## Evaluation and ranking (lines 74–110 of the source) -/

/-- One row of the results table (lines 92–98): outer and inner diameter in
mm, stress in MPa, safety factor, and the `Pass` flag `SF >= target_SF`. -/
structure Row where
  outer : ℚ
  inner : ℚ
  stress : ℚ
  sf : ℚ
  passes : Bool
deriving DecidableEq

/-- One iteration of the results loop (lines 90–98): evaluate a tube and
record the row appended to `results`. -/
def evalRow (mass span g_load strength target_SF : ℚ) (t : ℚ × ℚ) : Row :=
  let p := compute_tube mass span g_load t.1 t.2 strength
  ⟨t.1, t.2, p.1, p.2, decide (target_SF ≤ p.2)⟩

/-- Stable insertion into a list that is sorted by outer diameter. -/
def insertByOuter (r : Row) : List Row → List Row
  | [] => [r]
  | x :: xs => if r.outer ≤ x.outer then r :: x :: xs else x :: insertByOuter r xs

/-- Model of `df.sort_values("Outer (mm)")` (line 100) as insertion sort:
the rows reordered by outer diameter ascending.  The source delegates to
pandas, whose contract is the ascending key order; pandas' default sort
kind (`quicksort`) leaves the relative order of equal keys unspecified,
which this model resolves stably. -/
def sortByOuter : List Row → List Row
  | [] => []
  | x :: xs => insertByOuter x (sortByOuter xs)

/-- The structured outcome of a successful run (lines 81–110): the load
summary metrics, the sorted results table, and the recommended row. -/
structure Report where
  weight : ℚ
  lift : ℚ
  moment : ℚ
  rows : List Row
  recommendation : Option Row
deriving DecidableEq

/-- Embedding of the `run_btn` computation block (lines 74–110): parse the
tube list; with no surviving tubes, stop with the "No valid tubes!" error
(lines 77–79); otherwise evaluate every tube (lines 89–98), sort the table
by outer diameter (line 100), and recommend the first passing row of the
sorted table when one exists (`good = df[df["Pass"] == True]`,
`best = good.iloc[0]`, lines 104–110). -/
def run_compute (mass span g_load strength target_SF : ℚ) (tube_text : String) :
    Except String Report :=
  let tubes := parse_candidates tube_text
  if tubes.isEmpty then
    Except.error "No valid tubes! Use format: 12,8 on each line."
  else
    let r := root_bending_moment mass span g_load grav
    let rows := sortByOuter (tubes.map (evalRow mass span g_load strength target_SF))
    { weight := r.1, lift := r.2.1, moment := r.2.2.1, rows := rows,
      recommendation := (rows.filter fun row => row.passes).head? : Report }
    |> Except.ok

/-- The report of the concrete run with mass 5 kg, span 2 m, load factor 3,
strength 600 MPa, target safety factor 2, and tube list `8,6` / `12,8`:
the 8×6 tube fails the target and the 12×8 tube passes. -/
def sampleReport : Report :=
  { weight := 4905 / 100, lift := 14715 / 100, moment := 367875 / 10000,
    rows := [evalRow 5 2 3 600 2 (8, 6), evalRow 5 2 3 600 2 (12, 8)],
    recommendation := some (evalRow 5 2 3 600 2 (12, 8)) }

/-- C1: for every positive mass `m`, span `s` and load factor `n`, the load
computation returns weight `= m * 9.81`, limit load `= weight * n`, and root
bending moment `= (m * 9.81 * n * s) / 8` (with `grav = 981/100 = 9.81`). -/
theorem root_bending_moment_spec (m s n : ℚ) (hm : 0 < m) (hs : 0 < s) (hn : 0 < n) :
    (root_bending_moment m s n grav).1 = m * (981 / 100) ∧
    (root_bending_moment m s n grav).2.1 = (root_bending_moment m s n grav).1 * n ∧
    (root_bending_moment m s n grav).2.2.1 = m * (981 / 100) * n * s / 8 :=
  ⟨rfl, rfl, rfl⟩

/-- Witness for `root_bending_moment_spec` at mass 5 kg, span 2 m, load
factor 3 (the spec's concrete scenario). -/
theorem root_bending_moment_spec_witness :
    (0 : ℚ) < 5 ∧ (0 : ℚ) < 2 ∧ (0 : ℚ) < 3 ∧
    ((root_bending_moment 5 2 3 grav).1 = 5 * (981 / 100) ∧
     (root_bending_moment 5 2 3 grav).2.1 = (root_bending_moment 5 2 3 grav).1 * 3 ∧
     (root_bending_moment 5 2 3 grav).2.2.1 = 5 * (981 / 100) * 3 * 2 / 8) :=
  ⟨by norm_num, by norm_num, by norm_num,
   root_bending_moment_spec 5 2 3 (by norm_num) (by norm_num) (by norm_num)⟩

/-- C2: for every geometry with `D > d > 0`, the section-property computation
returns moment of inertia `I = π/64 * (D^4 - d^4)` and section modulus
`S = I / (D/2)`. -/
theorem tube_section_spec (D d : ℚ) (hd : 0 < d) (hDd : d < D) :
    (tube_section D d).1 = mathPi / 64 * (D ^ 4 - d ^ 4) ∧
    (tube_section D d).2 = (tube_section D d).1 / (D / 2) :=
  ⟨rfl, rfl⟩

/-- Witness for `tube_section_spec` at the spec's concrete geometry
`D = 12`, `d = 8`. -/
theorem tube_section_spec_witness :
    (0 : ℚ) < 8 ∧ (8 : ℚ) < 12 ∧
    ((tube_section 12 8).1 = mathPi / 64 * (12 ^ 4 - 8 ^ 4) ∧
     (tube_section 12 8).2 = (tube_section 12 8).1 / (12 / 2)) :=
  ⟨by norm_num, by norm_num, tube_section_spec 12 8 (by norm_num) (by norm_num)⟩

/-- C3: for every valid input (positive scalars, `D > d > 0`), the
per-candidate evaluation computes stress as the root moment converted to
N·mm (multiplied by 1000) divided by the section modulus, and safety factor
as the allowable strength divided by that stress. -/
theorem compute_tube_spec (mass span g_load D d strength : ℚ)
    (hm : 0 < mass) (hs : 0 < span) (hg : 0 < g_load) (hstr : 0 < strength)
    (hd : 0 < d) (hDd : d < D) :
    (compute_tube mass span g_load D d strength).1
      = (root_bending_moment mass span g_load grav).2.2.1 * 1000 / (tube_section D d).2 ∧
    (compute_tube mass span g_load D d strength).2
      = strength / (compute_tube mass span g_load D d strength).1 :=
  ⟨rfl, rfl⟩

/-- Witness for `compute_tube_spec` at the spec's concrete scenario
(mass 5, span 2, load factor 3, tube 12×8, strength 600). -/
theorem compute_tube_spec_witness :
    (0 : ℚ) < 5 ∧ (0 : ℚ) < 2 ∧ (0 : ℚ) < 3 ∧ (0 : ℚ) < 600 ∧
    (0 : ℚ) < 8 ∧ (8 : ℚ) < 12 ∧
    ((compute_tube 5 2 3 12 8 600).1
       = (root_bending_moment 5 2 3 grav).2.2.1 * 1000 / (tube_section 12 8).2 ∧
     (compute_tube 5 2 3 12 8 600).2 = 600 / (compute_tube 5 2 3 12 8 600).1) :=
  ⟨by norm_num, by norm_num, by norm_num, by norm_num, by norm_num, by norm_num,
   compute_tube_spec 5 2 3 12 8 600 (by norm_num) (by norm_num) (by norm_num)
     (by norm_num) (by norm_num) (by norm_num)⟩

/-! ## Helper lemmas about the sorted results table -/

/-- Membership after insertion: an element of `insertByOuter r l` is `r` or
an element of `l`. -/
theorem mem_insertByOuter {b r : Row} {l : List Row} (hb : b ∈ insertByOuter r l) :
    b = r ∨ b ∈ l := by
  induction l with
  | nil => simpa [insertByOuter] using hb
  | cons x xs ih =>
    unfold insertByOuter at hb
    by_cases hle : r.outer ≤ x.outer
    · rw [if_pos hle] at hb
      rcases List.mem_cons.mp hb with h | h
      · exact Or.inl h
      · exact Or.inr h
    · rw [if_neg hle] at hb
      rcases List.mem_cons.mp hb with h | h
      · exact Or.inr (List.mem_cons.mpr (Or.inl h))
      · rcases ih h with h' | h'
        · exact Or.inl h'
        · exact Or.inr (List.mem_cons.mpr (Or.inr h'))

/-- `insertByOuter` preserves sortedness by outer diameter. -/
theorem pairwise_insertByOuter (r : Row) (l : List Row)
    (h : l.Pairwise fun a b => a.outer ≤ b.outer) :
    (insertByOuter r l).Pairwise fun a b => a.outer ≤ b.outer := by
  induction l with
  | nil => simp [insertByOuter]
  | cons x xs ih =>
    rw [List.pairwise_cons] at h
    obtain ⟨hx, hxs⟩ := h
    unfold insertByOuter
    by_cases hle : r.outer ≤ x.outer
    · rw [if_pos hle]
      refine List.pairwise_cons.mpr ⟨?_, List.pairwise_cons.mpr ⟨hx, hxs⟩⟩
      intro b hb
      rcases List.mem_cons.mp hb with hbx | hbxs
      · exact hbx ▸ hle
      · exact le_trans hle (hx b hbxs)
    · rw [if_neg hle]
      refine List.pairwise_cons.mpr ⟨?_, ih hxs⟩
      intro b hb
      rcases mem_insertByOuter hb with hbr | hbxs
      · exact hbr ▸ le_of_not_le hle
      · exact hx b hbxs

/-- The results table produced by `sortByOuter` is sorted by outer diameter
ascending. -/
theorem pairwise_sortByOuter (l : List Row) :
    (sortByOuter l).Pairwise fun a b => a.outer ≤ b.outer := by
  induction l with
  | nil => simp [sortByOuter]
  | cons x xs ih => exact pairwise_insertByOuter x _ ih

/-- In a table sorted by outer diameter, the first passing row has the
least outer diameter among passing rows. -/
theorem find?_outer_min {l : List Row} (hs : l.Pairwise fun a b => a.outer ≤ b.outer)
    {r : Row} (h : l.find? (fun row => row.passes) = some r) :
    ∀ row ∈ l, row.passes = true → r.outer ≤ row.outer := by
  induction l with
  | nil => simp at h
  | cons x xs ih =>
    rw [List.pairwise_cons] at hs
    obtain ⟨hx, hxs⟩ := hs
    rw [List.find?_cons] at h
    intro row hrow hpass
    by_cases hxp : x.passes
    · simp only [hxp] at h
      have hrx : x = r := by injection h
      subst hrx
      rcases List.mem_cons.mp hrow with h' | h'
      · exact h' ▸ le_refl _
      · exact hx row h'
    · simp only [Bool.not_eq_true] at hxp
      simp only [hxp] at h
      rcases List.mem_cons.mp hrow with h' | h'
      · subst h'; rw [hpass] at hxp; cases hxp
      · exact ih hxs h row h' hpass

/-- A parsed line always satisfies `d < D`. -/
theorem parseLine_inner_lt_outer {line : List Char} {p : ℚ × ℚ}
    (h : parseLine line = some p) : p.2 < p.1 := by
  unfold parseLine at h
  split at h
  · split at h
    · injection h with h
      subst h
      assumption
    · cases h
  · cases h

/-- C9 (amended): every `(outer, inner)` pair produced by candidate parsing
satisfies `inner < outer`; strict positivity of the diameters is not
enforced by the parser. -/
theorem parse_inner_lt_outer (text : String) (p : ℚ × ℚ)
    (hp : p ∈ parse_candidates text) : p.2 < p.1 := by
  unfold parse_candidates parseLines at hp
  obtain ⟨line, _, hline⟩ := List.mem_filterMap.mp hp
  exact parseLine_inner_lt_outer hline

/-- Witness for `parse_inner_lt_outer` on the input text `8,6`. -/
theorem parse_inner_lt_outer_witness :
    ((8 : ℚ), (6 : ℚ)) ∈ parse_candidates "8,6" ∧ ((6 : ℚ) < 8) :=
  ⟨by decide, parse_inner_lt_outer "8,6" (8, 6) (by decide)⟩

/-- C9 (counterexample): the free-text input `8,-6` produces the pair
`(8, -6)`, whose inner diameter is negative — candidate parsing does not
guarantee strictly positive diameters. -/
theorem parse_positive_counterexample :
    parse_candidates "8,-6" = [(8, -6)] ∧ ((-6 : ℚ) < 0) := by
  constructor
  · decide
  · norm_num

/-- C10: whenever the candidate list is empty after filtering, the run
stops with the "No valid tubes!" error and produces no report. -/
theorem empty_candidates_error (mass span g_load strength target_SF : ℚ) (text : String)
    (h : parse_candidates text = []) :
    run_compute mass span g_load strength target_SF text
      = Except.error "No valid tubes! Use format: 12,8 on each line." := by
  unfold run_compute
  rw [h]
  rfl

/-- Witness for `empty_candidates_error` on the input text `garbage`,
which parses to no tubes. -/
theorem empty_candidates_error_witness :
    parse_candidates "garbage" = [] ∧
    run_compute 5 2 3 600 2 "garbage"
      = Except.error "No valid tubes! Use format: 12,8 on each line." :=
  ⟨by decide, empty_candidates_error 5 2 3 600 2 "garbage" (by decide)⟩

/-- C7: a candidate line whose two float fields satisfy `inner ≥ outer` is
rejected, while the candidates of all other lines are still parsed and
evaluated — one bad entry never aborts the rest of the list. -/
theorem bad_candidate_excluded (pre post : List (List Char)) (bad : List Char) (D d : ℚ)
    (hbad : parseLinePair bad = some (D, d)) (hout : D ≤ d)
    (mass span g_load strength target_SF : ℚ) :
    parseLines (pre ++ bad :: post) = parseLines pre ++ parseLines post ∧
    (parseLines (pre ++ bad :: post)).map (evalRow mass span g_load strength target_SF)
      = (parseLines pre).map (evalRow mass span g_load strength target_SF)
        ++ (parseLines post).map (evalRow mass span g_load strength target_SF) := by
  have hline : parseLine bad = none := by
    unfold parseLine
    rw [hbad]
    simp [not_lt.mpr hout]
  have h1 : parseLines (pre ++ bad :: post) = parseLines pre ++ parseLines post := by
    unfold parseLines
    rw [List.filterMap_append]
    simp [List.filterMap_cons, hline]
  exact ⟨h1, by rw [h1, List.map_append]⟩

/-- Witness for `bad_candidate_excluded`: in the list `8,6` / `6,8` / `10,8`
the middle line (inner 8 ≥ outer 6) is dropped and the other two tubes are
still parsed and evaluated. -/
theorem bad_candidate_excluded_witness :
    parseLinePair "6,8".toList = some (6, 8) ∧ ((6 : ℚ) ≤ 8) ∧
    (parseLines (["8,6".toList] ++ "6,8".toList :: ["10,8".toList])
       = parseLines ["8,6".toList] ++ parseLines ["10,8".toList] ∧
     (parseLines (["8,6".toList] ++ "6,8".toList :: ["10,8".toList])).map (evalRow 5 2 3 600 2)
       = (parseLines ["8,6".toList]).map (evalRow 5 2 3 600 2)
         ++ (parseLines ["10,8".toList]).map (evalRow 5 2 3 600 2)) :=
  ⟨by decide, by norm_num,
   bad_candidate_excluded ["8,6".toList] ["10,8".toList] "6,8".toList 6 8
     (by decide) (by norm_num) 5 2 3 600 2⟩

/-- C4: in every successful run, the recommendation is the first entry of
the outer-diameter-sorted table whose `Pass` flag is true; it is absent
exactly when no entry passes (equivalently, every entry has `passes =
false`), and when present it passes and has the least outer diameter among
all passing entries. -/
theorem recommendation_spec (mass span g_load strength target_SF : ℚ) (text : String)
    (report : Report)
    (h : run_compute mass span g_load strength target_SF text = Except.ok report) :
    report.recommendation = report.rows.find? (fun row => row.passes) ∧
    (report.recommendation = none ↔ ∀ row ∈ report.rows, row.passes = false) ∧
    ∀ r, report.recommendation = some r →
      r.passes = true ∧ ∀ row ∈ report.rows, row.passes = true → r.outer ≤ row.outer := by
  unfold run_compute at h
  by_cases he : (parse_candidates text).isEmpty
  · rw [if_pos he] at h
    cases h
  · rw [if_neg he] at h
    injection h with h
    subst h
    have hsorted := pairwise_sortByOuter
      ((parse_candidates text).map (evalRow mass span g_load strength target_SF))
    refine ⟨List.filter_head? _ _, ?_, ?_⟩
    · simp only [List.filter_head?]
      simp [List.find?_eq_none]
    · intro r hr
      simp only [List.filter_head?] at hr
      exact ⟨List.find?_some hr, find?_outer_min hsorted hr⟩

/-- Witness for `recommendation_spec` on the concrete run behind
`sampleReport`, whose recommendation is the 12×8 tube. -/
theorem recommendation_spec_witness :
    run_compute 5 2 3 600 2 "8,6\n12,8" = Except.ok sampleReport ∧
    (sampleReport.recommendation = sampleReport.rows.find? (fun row => row.passes) ∧
     (sampleReport.recommendation = none ↔ ∀ row ∈ sampleReport.rows, row.passes = false) ∧
     ∀ r, sampleReport.recommendation = some r →
       r.passes = true ∧ ∀ row ∈ sampleReport.rows, row.passes = true → r.outer ≤ row.outer) :=
  ⟨rfl, recommendation_spec 5 2 3 600 2 "8,6\n12,8" sampleReport rfl⟩

/-- C8 (amended): the evaluation performs no section-modulus validity
check — for positive load inputs and strength, a geometry whose computed
section modulus is negative yields a negative stress and a negative safety
factor instead of any `InvalidGeometry` failure. -/
theorem negative_modulus_negative_stress (mass span g_load D d strength : ℚ)
    (hm : 0 < mass) (hs : 0 < span) (hg : 0 < g_load) (hstr : 0 < strength)
    (hS : (tube_section D d).2 < 0) :
    (compute_tube mass span g_load D d strength).1 < 0 ∧
    (compute_tube mass span g_load D d strength).2 < 0 := by
  have hMmm : 0 < (root_bending_moment mass span g_load grav).2.2.2 := by
    show (0 : ℚ) < mass * (981 / 100) * g_load * span / 8 * 1000
    positivity
  have hstress : (compute_tube mass span g_load D d strength).1 < 0 :=
    div_neg_of_pos_of_neg hMmm hS
  exact ⟨hstress, div_neg_of_pos_of_neg hstr hstress⟩

/-- C8 (counterexample): the candidate `1,-2` reaches the evaluation (the
parser only checks `inner < outer`), its section modulus is negative, and
the evaluation returns a negative stress — it does not fail with an
`InvalidGeometry` error, which the code does not have. -/
theorem modulus_check_counterexample :
    parse_candidates "1,-2" = [(1, -2)] ∧
    (tube_section 1 (-2)).2 < 0 ∧
    (compute_tube 5 2 3 1 (-2) 600).1 < 0 :=
  ⟨by decide, by decide, by decide⟩

/-- Witness for `negative_modulus_negative_stress` at the degenerate
geometry `D = 1`, `d = -2`. -/
theorem negative_modulus_negative_stress_witness :
    (0 : ℚ) < 5 ∧ (0 : ℚ) < 2 ∧ (0 : ℚ) < 3 ∧ (0 : ℚ) < 600 ∧
    (tube_section 1 (-2)).2 < 0 ∧
    ((compute_tube 5 2 3 1 (-2) 600).1 < 0 ∧ (compute_tube 5 2 3 1 (-2) 600).2 < 0) :=
  ⟨by norm_num, by norm_num, by norm_num, by norm_num, by decide,
   negative_modulus_negative_stress 5 2 3 1 (-2) 600 (by norm_num) (by norm_num)
     (by norm_num) (by norm_num) (by decide)⟩

/-- C5: for fixed positive load inputs, strength and inner diameter `d`,
and outer diameters `d < D1 < D2`, evaluating at `D2` gives strictly lower
stress and strictly higher safety factor than at `D1`. -/
theorem stress_safety_monotone (mass span g_load strength d D1 D2 : ℚ)
    (hm : 0 < mass) (hs : 0 < span) (hg : 0 < g_load) (hstr : 0 < strength)
    (hd : 0 < d) (h1 : d < D1) (h12 : D1 < D2) :
    (compute_tube mass span g_load D2 d strength).1
      < (compute_tube mass span g_load D1 d strength).1 ∧
    (compute_tube mass span g_load D1 d strength).2
      < (compute_tube mass span g_load D2 d strength).2 := by
  have hD1 : 0 < D1 := lt_trans hd h1
  have hD2 : 0 < D2 := lt_trans hD1 h12
  have hpi : (0 : ℚ) < mathPi := by norm_num [mathPi]
  have hc : (0 : ℚ) < mathPi / 64 := div_pos hpi (by norm_num)
  have hMmm : 0 < (root_bending_moment mass span g_load grav).2.2.2 := by
    show (0 : ℚ) < mass * (981 / 100) * g_load * span / 8 * 1000
    positivity
  have hX1 : (0 : ℚ) < D1 ^ 4 - d ^ 4 :=
    sub_pos.mpr (pow_lt_pow_left₀ h1 hd.le (by norm_num))
  have hX2 : (0 : ℚ) < D2 ^ 4 - d ^ 4 :=
    sub_pos.mpr (pow_lt_pow_left₀ (lt_trans h1 h12) hd.le (by norm_num))
  have hS1 : 0 < (tube_section D1 d).2 :=
    div_pos (mul_pos hc hX1) (by positivity)
  have hS2 : 0 < (tube_section D2 d).2 :=
    div_pos (mul_pos hc hX2) (by positivity)
  have hcube : D1 ^ 3 < D2 ^ 3 := pow_lt_pow_left₀ h12 hD1.le (by norm_num)
  have hSlt : (tube_section D1 d).2 < (tube_section D2 d).2 := by
    show mathPi / 64 * (D1 ^ 4 - d ^ 4) / (D1 / 2) < mathPi / 64 * (D2 ^ 4 - d ^ 4) / (D2 / 2)
    rw [div_lt_div_iff₀ (by positivity) (by positivity)]
    have key : (D1 ^ 4 - d ^ 4) * (D2 / 2) < (D2 ^ 4 - d ^ 4) * (D1 / 2) := by
      nlinarith [mul_pos (mul_pos hD1 hD2) (sub_pos.mpr hcube),
        mul_pos (pow_pos hd 4) (sub_pos.mpr h12)]
    nlinarith [mul_lt_mul_of_pos_left key hc]
  have hstress : (compute_tube mass span g_load D2 d strength).1
      < (compute_tube mass span g_load D1 d strength).1 :=
    div_lt_div_of_pos_left hMmm hS1 hSlt
  have hstr2 : 0 < (compute_tube mass span g_load D2 d strength).1 :=
    div_pos hMmm hS2
  exact ⟨hstress, div_lt_div_of_pos_left hstr hstr2 hstress⟩

/-- Witness for `stress_safety_monotone` at the concrete load case with
inner diameter 8 and outer diameters 10 < 12. -/
theorem stress_safety_monotone_witness :
    (0 : ℚ) < 5 ∧ (0 : ℚ) < 2 ∧ (0 : ℚ) < 3 ∧ (0 : ℚ) < 600 ∧
    (0 : ℚ) < 8 ∧ (8 : ℚ) < 10 ∧ (10 : ℚ) < 12 ∧
    ((compute_tube 5 2 3 12 8 600).1 < (compute_tube 5 2 3 10 8 600).1 ∧
     (compute_tube 5 2 3 10 8 600).2 < (compute_tube 5 2 3 12 8 600).2) :=
  ⟨by norm_num, by norm_num, by norm_num, by norm_num, by norm_num, by norm_num, by norm_num,
   stress_safety_monotone 5 2 3 600 8 10 12 (by norm_num) (by norm_num) (by norm_num)
     (by norm_num) (by norm_num) (by norm_num) (by norm_num)⟩

end SparSizer
